import Mathlib

/-!
Shallow embedding of the conversation/state logic of
`src/Nano_Banana_Renderer-er_2025.py` (a viewport-to-image GUI plugin).

Modelling conventions:
* image byte strings are `List Nat`;
* the genai request/response types (`types.Part`, `types.Content`,
  candidates, usage metadata) are mirrored as structures with `Option`
  fields, matching Python attribute access that may yield `None`;
* Python truthiness of byte strings / strings is made explicit
  (`bytesTruthy`, emptiness tests);
* the external API call is an input to each action (`ApiOutcome`):
  either the exception it raised or the `Response` it returned;
* host-environment steps that cannot fail in the model (output-directory
  creation, the `google-genai` import, the viewport snapshot itself) are
  taken on their success path; their failure branches return before any
  conversation-state change beyond what is noted in the definitions;
* floating-point prices are modelled as rationals; the GUI widgets,
  file paths and preview bitmaps are out of scope, except that the
  on-disk last-generated image is modelled by the bytes written to it
  and button enabled flags are kept where the workflow reads them.
-/

namespace NanoBanana

/-- Image bytes, abstractly (Python `bytes`). -/
abbrev Bytes := List Nat

/-- `types.Part.inline_data`: binary payload plus optional mime type. -/
structure InlineData where
  data : Bytes
  mimeType : Option String
deriving DecidableEq, Repr

/-- `types.Part`: may carry text and/or inline binary data. -/
structure Part where
  text : Option String
  inlineData : Option InlineData
deriving DecidableEq, Repr

/-- `types.Part.from_text(text=s)` -/
def Part.fromText (s : String) : Part :=
  { text := some s, inlineData := none }

/-- `types.Part.from_bytes(data=d, mime_type=m)` -/
def Part.fromBytes (d : Bytes) (m : String) : Part :=
  { text := none, inlineData := some { data := d, mimeType := some m } }

/-- `types.Content(role=..., parts=...)` -/
structure Content where
  role : String
  parts : List Part
deriving DecidableEq, Repr

/-- A response candidate; its `content` attribute may be `None`. -/
structure Candidate where
  content : Option Content
deriving DecidableEq, Repr

/-- `response.usage_metadata` token counts. -/
structure Usage where
  promptTokenCount : Nat
  candidatesTokenCount : Nat
  totalTokenCount : Nat
deriving DecidableEq, Repr

/-- A genai response: optional usage metadata plus candidates. -/
structure Response where
  usageMetadata : Option Usage
  candidates : List Candidate
deriving DecidableEq, Repr

/-- Python truthiness of an optional byte string: `None` and `b""` are falsy. -/
def bytesTruthy : Option Bytes → Bool
  | none => false
  | some b => !b.isEmpty

/-! ## Price table (`self.model_pricing`, lines 379-394) -/

/-- One entry of `self.model_pricing`. -/
structure ModelPricing where
  inputPrice : ℚ
  outputPrice : ℚ
  imageGenerationPrice : ℚ
  tokensPerImage : Nat
  costPerImage : ℚ
deriving Repr

/-- The per-model price table. -/
def modelPricing : List (String × ModelPricing) :=
  [("gemini-2.5-flash-image-preview",
      { inputPrice := 3/10, outputPrice := 5/2, imageGenerationPrice := 30,
        tokensPerImage := 1290, costPerImage := 39/1000 }),
   ("gemini-2.0-flash",
      { inputPrice := 1/10, outputPrice := 2/5, imageGenerationPrice := 30,
        tokensPerImage := 1290, costPerImage := 39/1000 })]

/-- The fixed model (`self.model`, line 397). -/
def defaultModel : String := "gemini-2.5-flash-image-preview"

/-- `_get_model_pricing`: table lookup, falling back to the
`gemini-2.5-flash-image-preview` entry. -/
def getModelPricing (m : String) : ModelPricing :=
  match modelPricing.lookup m with
  | some p => p
  | none =>
    match modelPricing.lookup "gemini-2.5-flash-image-preview" with
    | some p => p
    | none => { inputPrice := 0, outputPrice := 0, imageGenerationPrice := 0,
                tokensPerImage := 0, costPerImage := 0 }

/-- Result record of `_calculate_generation_cost`. -/
structure CostInfo where
  inputCost : ℚ
  outputCost : ℚ
  imageCost : ℚ
  totalCost : ℚ
deriving Repr

/-- `_calculate_generation_cost(input_tokens, output_tokens, model_name)`. -/
def calculateGenerationCost (inputTokens outputTokens : Nat) (m : String) : CostInfo :=
  let pricing := getModelPricing m
  let inputCost : ℚ := ((inputTokens : ℚ) / 1000000) * pricing.inputPrice
  let outputCost : ℚ := ((outputTokens : ℚ) / 1000000) * pricing.outputPrice
  let imageCost : ℚ := pricing.costPerImage
  { inputCost := inputCost, outputCost := outputCost, imageCost := imageCost,
    totalCost := inputCost + outputCost + imageCost }

/-- Cost charged by `_process_response` (lines 1689-1713): the computed
total cost when usage metadata is present, otherwise the fixed per-image
cost of the current model. -/
def chargedCost (r : Response) : ℚ :=
  match r.usageMetadata with
  | some u =>
      (calculateGenerationCost u.promptTokenCount u.candidatesTokenCount defaultModel).totalCost
  | none => (getModelPricing defaultModel).costPerImage

/-! ## Response scanning (`_process_response`, lines 1715-1780) -/

/-- Accumulator of the first scan loop: `img_bytes`, `img_mime`,
`analysis_text` (lines 1715-1737). -/
structure ScanAcc where
  imgBytes : Option Bytes
  imgMime : String
  analysisText : Option String
deriving DecidableEq, Repr

/-- Body of the first scan loop for one part (lines 1725-1737): an inline
image part with truthy data overwrites `img_bytes` (and the mime when one
is given); substantial stripped text overwrites `analysis_text`. -/
def scanPart (acc : ScanAcc) (p : Part) : ScanAcc :=
  let acc1 :=
    match p.inlineData with
    | some d =>
        if d.data.isEmpty then acc
        else
          { acc with
            imgBytes := some d.data,
            imgMime :=
              match d.mimeType with
              | some m => if m = "" then acc.imgMime else m
              | none => acc.imgMime }
    | none => acc
  match p.text with
  | some t =>
      if t ≠ "" ∧ t.trim ≠ "" ∧ t.trim.length > 10 then
        { acc1 with analysisText := some t.trim }
      else acc1
  | none => acc1

/-- First scan loop over all candidates and their parts (lines 1720-1737). -/
def scanResponse (r : Response) : ScanAcc :=
  r.candidates.foldl
    (fun acc c =>
      match c.content with
      | none => acc
      | some ct => ct.parts.foldl scanPart acc)
    { imgBytes := none, imgMime := "image/png", analysisText := none }

/-- `data.split(",", 1)[1]`: the text after the first comma, or failure
(`IndexError`) when there is no comma. -/
def afterFirstComma (s : String) : Option String :=
  match s.splitOn "," with
  | [] => none
  | [_] => none
  | _ :: rest => some (String.intercalate "," rest)

/-- Value of one base64 alphabet character. -/
def b64val (c : Char) : Option Nat :=
  if 'A' ≤ c ∧ c ≤ 'Z' then some (c.toNat - 65)
  else if 'a' ≤ c ∧ c ≤ 'z' then some (c.toNat - 97 + 26)
  else if '0' ≤ c ∧ c ≤ '9' then some (c.toNat - 48 + 52)
  else if c = '+' then some 62
  else if c = '/' then some 63
  else none

/-- The non-strict `binascii.a2b_base64` state machine of CPython: walk
the characters carrying the quad position, the pending high bits of the
current quad, and a pad counter.  Characters outside the alphabet are
skipped; `=` is ignored before two data characters of a quad, and
finishes the decode once a quad holds two data characters and enough
pads have been seen; input that ends inside a quad is the
`binascii.Error` (the "Incorrect padding" / 1-mod-4 messages). -/
def a2bBase64 : List Char → Nat → Nat → Nat → Bytes → Option Bytes
  | [], quadPos, _, _, acc => if quadPos = 0 then some acc else none
  | ch :: rest, quadPos, leftchar, pads, acc =>
      if ch = '=' then
        if 2 ≤ quadPos then
          if 4 ≤ quadPos + (pads + 1) then some acc
          else a2bBase64 rest quadPos leftchar (pads + 1) acc
        else a2bBase64 rest quadPos leftchar pads acc
      else
        match b64val ch with
        | none => a2bBase64 rest quadPos leftchar pads acc
        | some v =>
            match quadPos with
            | 0 => a2bBase64 rest 1 v 0 acc
            | 1 => a2bBase64 rest 2 (v % 16) 0 (acc ++ [leftchar * 4 + v / 16])
            | 2 => a2bBase64 rest 3 (v % 4) 0 (acc ++ [leftchar * 16 + v / 4])
            | _ => a2bBase64 rest 0 0 0 (acc ++ [leftchar * 64 + v])

/-- `base64.b64decode` on a `str` argument: the ASCII encoding step
fails (`ValueError`) on any character above 127, then the lenient
`a2b_base64` runs on the characters. -/
def b64decode (s : String) : Option Bytes :=
  if s.data.all (fun c => c.toNat < 128) then a2bBase64 s.data 0 0 0 [] else none

/-- Body of the fallback try-block for one text value (lines 1766-1773):
strip, check the `data:image` marker, split at the first comma and
base64-decode; any exception yields no image and scanning continues. -/
def tryDecodeDataUri (t : String) : Option Bytes :=
  let data := t.trim
  if data.startsWith "data:image" then
    match afterFirstComma data with
    | none => none
    | some b64 => b64decode b64
  else none

/-- Fallback attempt for one part (lines 1763-1773): only truthy text is
considered. -/
def textDecodeOf (p : Part) : Option Bytes :=
  match p.text with
  | some t => if t = "" then none else tryDecodeDataUri t
  | none => none

/-- Fallback inner loop over the parts of one content (first success
breaks, lines 1763-1773). -/
def fallbackScanParts : List Part → Option Bytes
  | [] => none
  | p :: ps =>
      match textDecodeOf p with
      | some b => some b
      | none => fallbackScanParts ps

/-- Fallback outer loop over candidates (lines 1757-1776), carrying the
running `img_bytes` value: a candidate whose parts produce a decode
overwrites it, and the loop stops (`if img_bytes: break`, line 1775)
only when that value is truthy — an empty decode is carried to the next
candidate, which may still overwrite it with a real image. -/
def fallbackScanCandidates : List Candidate → Option Bytes → Option Bytes
  | [], acc => acc
  | c :: cs, acc =>
      match c.content with
      | none => fallbackScanCandidates cs acc
      | some ct =>
          let acc1 :=
            match fallbackScanParts ct.parts with
            | some b => some b
            | none => acc
          if bytesTruthy acc1 then acc1 else fallbackScanCandidates cs acc1

/-- The image bytes `_process_response` ends up with after the scan loop
and, when that found nothing, the data-URI fallback. -/
def extractImage (r : Response) : Option Bytes :=
  match (scanResponse r).imgBytes with
  | some b => some b
  | none => fallbackScanCandidates r.candidates none

/-! ## Session state and actions -/

/-- The per-form conversation state the workflow reads and writes.

`promptHistory` is `self.Prompt_history`; an entry is the optional
`content` attribute of a genai content holder (a request turn is always
present, but line 1751 appends `candidate.content` verbatim, which the
SDK allows to be `None`).  `lastGeneratedImage` stands for the bytes of
the file at `self._last_generated_image_path` (`none` when no such file
exists).  The bitmap mirrors (`_last_viewport_bitmap`, previews) are
represented by the byte fields they are decoded from. -/
structure Session where
  promptHistory : List (Option Content)
  capturedViewportBytes : Option Bytes
  viewportCaptured : Bool
  lastGeneratedImage : Option Bytes
  timerRunning : Bool
  generateEnabled : Bool
  iterateEnabled : Bool
  firstCapture : Bool
deriving DecidableEq, Repr

/-- The state set up by `__init__` (lines 399-417). -/
def initialSession : Session :=
  { promptHistory := [], capturedViewportBytes := none, viewportCaptured := false,
    lastGeneratedImage := none, timerRunning := false, generateEnabled := false,
    iterateEnabled := false, firstCapture := true }

/-- What the external `client.models.generate_content` call did:
raised an exception with a message, or returned a response. -/
inductive ApiOutcome where
  | failure (msg : String)
  | success (r : Response)
deriving DecidableEq, Repr

/-- The user-visible outcome of one action handler, as logged to the
chat panel or shown in a message box. -/
inductive ActionResult where
  | ok
  | preconditionError (msg : String)
  | missingKeyError
  | apiError (msg : String)
  | captureError (msg : String)
  | noImageError
deriving DecidableEq, Repr

/-- Outcome of `_process_response`: an image was extracted and saved, or
the no-image error was logged. -/
inductive ProcessResult where
  | imageSaved (img : Bytes)
  | noImage
deriving DecidableEq, Repr

/-- Lines 1745-1754: when candidates are non-empty, the first
candidate's `content` attribute is appended to `Prompt_history`. -/
def appendReply (hist : List (Option Content)) (r : Response) : List (Option Content) :=
  match r.candidates.head? with
  | some c => hist ++ [c.content]
  | none => hist

/-- `_process_response(response, output_dir, is_viewport_processing, ...)`
(lines 1686-1841): charge the cost, append the first candidate's reply
to the history, extract the image; when truthy image bytes were found
they are written to a fresh output file (the new last generated image)
and, for viewport processing, also installed as the captured reference
bytes; otherwise the no-image error is logged and nothing further
happens.  Returns the new state, the result, and the charged cost. -/
def processResponse (s : Session) (r : Response) (isViewportProcessing : Bool) :
    Session × ProcessResult × ℚ :=
  let cost := chargedCost r
  let s1 := { s with promptHistory := appendReply s.promptHistory r }
  let img? := extractImage r
  if bytesTruthy img? then
    let img := img?.getD []
    let s2 := { s1 with lastGeneratedImage := some img }
    let s3 := if isViewportProcessing then { s2 with capturedViewportBytes := some img } else s2
    (s3, ProcessResult.imageSaved img, cost)
  else
    (s1, ProcessResult.noImage, cost)

/-- The fixed studio instruction of `_execute_capture_viewport`
(line 1384), around the camera description interpolated from the
snapshot metadata. -/
def structuredPrompt (cameraPromptAddition : String) : String :=
  "Place what you see in the 3D viewport capture in a photo studio with a soft infinite white background. Always use the same soft daylight-like illumination. "
    ++ cameraPromptAddition
    ++ "Compare your result with the reference image and do not release it until the result is a complete match. Do not modify or change anything that doesn't match the viewport image in any way."

/-- The request parts built by capture (lines 1389-1392): the structured
text first, then the snapshot; mood-board images are never included. -/
def capturePartsList (png : Bytes) (cam : String) : List Part :=
  [Part.fromText (structuredPrompt cam), Part.fromBytes png "image/png"]

/-- `_execute_capture_viewport` (lines 1321-1424), taking as inputs the
snapshot bytes and formatted camera description delivered by the
external capture collaborator and the outcome of the API call.  Clears
the history, stores the snapshot as the reference, sends the one
structured request turn, and processes the reply as viewport processing
(so a returned image becomes both the new reference and the last
generated image); any exception from the API call is caught by the
handler's outer `except`, after the history and reference were already
replaced. -/
def executeCaptureViewport (s : Session) (apiKey : String) (png : Bytes) (cam : String)
    (outcome : ApiOutcome) : Session × ActionResult :=
  let s0 := { s with firstCapture := false,
                     promptHistory := ([] : List (Option Content)),
                     timerRunning := true }
  if apiKey = "" then
    ({ s0 with timerRunning := false }, ActionResult.missingKeyError)
  else
    let s1 := { s0 with capturedViewportBytes := some png, viewportCaptured := true }
    let req : Content := { role := "user", parts := capturePartsList png cam }
    let s2 := { s1 with promptHistory := [some req] }
    match outcome with
    | ApiOutcome.failure msg =>
        ({ s2 with timerRunning := false }, ActionResult.captureError msg)
    | ApiOutcome.success r =>
        let pr := processResponse s2 r true
        ({ pr.1 with generateEnabled := true, iterateEnabled := true, timerRunning := false },
         match pr.2.1 with
         | ProcessResult.imageSaved _ => ActionResult.ok
         | ProcessResult.noImage => ActionResult.noImageError)

/-- The strict instruction prepended by generate (lines 1456, 1521). -/
def strictInstruction : String :=
  "Follow the primary reference image strictly. Do not change the camera angle, form, or composition. "

/-- The full prompt of the fresh-conversation branch (lines 1457-1460). -/
def fullPromptOf (userPrompt : String) : String :=
  if userPrompt ≠ "" then strictInstruction ++ userPrompt
  else strictInstruction ++ "Create an image based on this reference."

/-- The prompt of the iteration branch (lines 1522-1525). -/
def iterationPromptOf (userPrompt : String) : String :=
  if userPrompt ≠ "" then strictInstruction ++ userPrompt
  else strictInstruction ++ "Continue with this image"

/-- The mood-board parts actually attached: each preview slot yields an
optional part (`None` when no path is set or `read_file_as_part`
failed), and only the present ones are appended (lines 1493-1499). -/
def moodParts (mood : List (Option Part)) : List Part :=
  mood.filterMap id

/-- The request parts built by generate, in both branches (lines
1484-1499 and 1515-1534): reference image first, then the instruction
text, then the mood-board parts last. -/
def generateRequestParts (ref : Bytes) (txt : String) (mood : List (Option Part)) :
    List Part :=
  Part.fromBytes ref "image/png" :: Part.fromText txt :: moodParts mood

/-- `on_generate` (lines 1426-1573).  `userPrompt` is the effective
stripped prompt text (empty when the placeholder is showing), `mood` the
readable mood-board slots.  The precondition and API-key checks return
before any state change; otherwise the user request turn is recorded in
`Prompt_history` (appended when a conversation exists, else as the fresh
one-turn history) before the API call, so an API exception leaves that
turn in place, logs the error verbatim, and stops the timer. -/
def onGenerate (s : Session) (apiKey userPrompt : String) (mood : List (Option Part))
    (outcome : ApiOutcome) : Session × ActionResult :=
  if !s.viewportCaptured || !bytesTruthy s.capturedViewportBytes then
    (s, ActionResult.preconditionError "Please capture viewport first!")
  else if apiKey = "" then
    (s, ActionResult.missingKeyError)
  else
    let ref := s.capturedViewportBytes.getD []
    let s1 := { s with timerRunning := true }
    let isIteration := !s1.promptHistory.isEmpty
    let s2 :=
      if isIteration then
        { s1 with promptHistory := s1.promptHistory ++
            [some { role := "user",
                    parts := generateRequestParts ref (iterationPromptOf userPrompt) mood }] }
      else
        { s1 with promptHistory :=
            [some { role := "user",
                    parts := generateRequestParts ref (fullPromptOf userPrompt) mood }] }
    match outcome with
    | ApiOutcome.failure msg =>
        ({ s2 with timerRunning := false }, ActionResult.apiError msg)
    | ApiOutcome.success r =>
        let pr := processResponse s2 r false
        ({ pr.1 with iterateEnabled := true, timerRunning := false },
         match pr.2.1 with
         | ProcessResult.imageSaved _ => ActionResult.ok
         | ProcessResult.noImage => ActionResult.noImageError)

/-- `on_iterate` (lines 1575-1615): requires an existing last generated
image file; promotes its bytes to the primary reference (the reload and
PNG re-encode of the stored image is the identity on the modelled
bytes), keeps `Prompt_history` untouched, disables the iterate button
until the next generation, and keeps the captured flag set. -/
def onIterate (s : Session) : Session × ActionResult :=
  match s.lastGeneratedImage with
  | none => (s, ActionResult.preconditionError "No generated image available to iterate with!")
  | some img =>
      ({ s with capturedViewportBytes := some img,
                iterateEnabled := false,
                viewportCaptured := true }, ActionResult.ok)

/-! ## Specification-side descriptions of the parsing policy -/

/-- The inline image carried by a part, when its data is truthy
(the condition of line 1728). -/
def inlineImageOf (p : Part) : Option Bytes :=
  match p.inlineData with
  | some d => if d.data.isEmpty then none else some d.data
  | none => none

/-- All parts of a response in candidate order, skipping candidates
without content (the iteration order of both loops). -/
def allParts (r : Response) : List Part :=
  (r.candidates.filterMap Candidate.content).foldr (fun ct acc => ct.parts ++ acc) []

/-- The last element of a list, defaulting to a fallback option. -/
def lastOr : List Bytes → Option Bytes → Option Bytes
  | [], d => d
  | b :: l, _ => lastOr l (some b)

/-- Stated from the spec sentence under test: the FIRST inline image
part found wins (what C1 claims the code does). -/
def specFirstInlineImage (r : Response) : Option Bytes :=
  (allParts r).findSome? inlineImageOf

/-- The LAST inline image part found, scanning all candidates in order
(what the overwriting loop actually keeps). -/
def specLastInlineImage (r : Response) : Option Bytes :=
  lastOr ((allParts r).filterMap inlineImageOf) none

/-- The decode each candidate contributes in the fallback: the first of
its text parts that decodes as a `data:image` base64 URI. -/
def candidateDecodes (cs : List Candidate) : List (Option Bytes) :=
  (cs.filterMap Candidate.content).map (fun ct => ct.parts.findSome? textDecodeOf)

/-- A decode counts as a usable image only when it is non-empty. -/
def truthyDecode : Option Bytes → Option Bytes
  | some b => if b.isEmpty then none else some b
  | none => none

/-- Spec-side description of the fallback policy: the first candidate
whose decode is non-empty wins; when candidates decode but all of them
to empty bytes, the (empty, hence unusable) value survives; with no
decode at all, nothing. -/
def specFallbackImage (r : Response) : Option Bytes :=
  match (candidateDecodes r.candidates).findSome? truthyDecode with
  | some b => some b
  | none =>
      if (candidateDecodes r.candidates).any Option.isSome then some [] else none

/-! ## Concrete instances used to evaluate the model -/

/-- A session right after a successful snapshot: reference bytes `[7]`. -/
def capturedSession : Session :=
  { initialSession with viewportCaptured := true, capturedViewportBytes := some ([7] : Bytes) }

/-- A session that additionally has a generated result on disk. -/
def generatedSession : Session :=
  { capturedSession with lastGeneratedImage := some ([3] : Bytes),
                         promptHistory := [some { role := "user", parts := [] }] }

/-- A response whose single candidate carries two inline image parts,
`[1]` then `[2]`. -/
def respTwoImages : Response :=
  { usageMetadata := none,
    candidates :=
      [{ content :=
          some { role := "model",
                 parts := [Part.fromBytes [1] "image/png",
                           Part.fromBytes [2] "image/png"] } }] }

/-- A response whose single candidate carries one inline image `[5]`. -/
def respOneImage : Response :=
  { usageMetadata := none,
    candidates :=
      [{ content :=
          some { role := "model",
                 parts := [Part.fromBytes [5] "image/png"] } }] }

/-- A reply turn carrying only (empty, hence falsy) text. -/
def textReplyContent : Content :=
  { role := "model", parts := [Part.fromText ""] }

/-- A text-only response: its candidate has a single text part and no
usable image anywhere. -/
def respTextOnly : Response :=
  { usageMetadata := none, candidates := [{ content := some textReplyContent }] }

/-! ## Lemmas about the scan loops -/

theorem scanPart_imgBytes (acc : ScanAcc) (p : Part) :
    (scanPart acc p).imgBytes =
      match inlineImageOf p with
      | some b => some b
      | none => acc.imgBytes := by
  unfold scanPart inlineImageOf
  rcases p with ⟨t, d⟩
  rcases d with _ | ⟨data, mime⟩ <;> rcases t with _ | t <;>
    simp only [] <;> split <;> simp_all <;> split <;> simp_all

theorem lastOr_append (l₁ l₂ : List Bytes) (d : Option Bytes) :
    lastOr (l₁ ++ l₂) d = lastOr l₂ (lastOr l₁ d) := by
  induction l₁ generalizing d with
  | nil => rfl
  | cons b l ih => simp [lastOr, ih]

theorem scanParts_imgBytes (ps : List Part) (acc : ScanAcc) :
    (ps.foldl scanPart acc).imgBytes =
      lastOr (ps.filterMap inlineImageOf) acc.imgBytes := by
  induction ps generalizing acc with
  | nil => rfl
  | cons p ps ih =>
      simp only [List.foldl_cons, List.filterMap_cons]
      rcases h : inlineImageOf p with _ | b
      · rw [ih]
        have : (scanPart acc p).imgBytes = acc.imgBytes := by
          rw [scanPart_imgBytes, h]
        rw [this]
      · simp only [lastOr]
        rw [ih]
        have : (scanPart acc p).imgBytes = some b := by
          rw [scanPart_imgBytes, h]
        rw [this]

theorem scanResponse_imgBytes (r : Response) :
    (scanResponse r).imgBytes = specLastInlineImage r := by
  rcases r with ⟨u, cands⟩
  unfold scanResponse specLastInlineImage allParts
  simp only []
  suffices h : ∀ (cs : List Candidate) (acc : ScanAcc),
      (cs.foldl
        (fun acc c =>
          match c.content with
          | none => acc
          | some ct => ct.parts.foldl scanPart acc) acc).imgBytes
        = lastOr (((cs.filterMap Candidate.content).foldr
            (fun ct acc => ct.parts ++ acc) []).filterMap inlineImageOf) acc.imgBytes by
    exact h cands _
  intro cs
  induction cs with
  | nil => intro acc; rfl
  | cons c cs ih =>
      intro acc
      rcases hc : c.content with _ | ct
      · simp only [List.foldl_cons, List.filterMap_cons, hc]
        exact ih acc
      · simp only [List.foldl_cons, List.filterMap_cons, hc, List.foldr_cons,
          List.filterMap_append, lastOr_append]
        rw [ih, scanParts_imgBytes]

theorem fallbackScanParts_eq (ps : List Part) :
    fallbackScanParts ps = ps.findSome? textDecodeOf := by
  induction ps with
  | nil => rfl
  | cons p ps ih =>
      rw [List.findSome?_cons]
      unfold fallbackScanParts
      rcases h : textDecodeOf p with _ | b <;> simp [h, ih]

theorem fallbackScanCandidates_eq (cs : List Candidate) (acc : Option Bytes)
    (hacc : bytesTruthy acc = false) :
    fallbackScanCandidates cs acc =
      (match (candidateDecodes cs).findSome? truthyDecode with
      | some b => some b
      | none => if (candidateDecodes cs).any Option.isSome then some [] else acc) := by
  induction cs generalizing acc with
  | nil => simp [fallbackScanCandidates, candidateDecodes]
  | cons c cs ih =>
      unfold fallbackScanCandidates
      rcases hc : c.content with _ | ct
      · have h2 := ih acc hacc
        simp only [candidateDecodes, List.filterMap_cons, hc] at h2 ⊢
        exact h2
      · have hparts := fallbackScanParts_eq ct.parts
        simp only [candidateDecodes, List.filterMap_cons, hc, List.map_cons,
          List.findSome?_cons, List.any_cons, hparts]
        rcases hd : ct.parts.findSome? textDecodeOf with _ | b
        · have h2 := ih acc hacc
          simp only [candidateDecodes] at h2
          simpa [truthyDecode, hacc] using h2
        · rcases b with _ | ⟨x, xs⟩
          · have h2 := ih (some ([] : Bytes)) rfl
            simp only [candidateDecodes] at h2
            simp only [truthyDecode, bytesTruthy, List.isEmpty_nil, Bool.not_true,
              Bool.false_eq_true, if_false, Option.isSome_some, Bool.true_or, if_true]
            rw [h2]
            rcases ((cs.filterMap Candidate.content).map
                (fun ct => ct.parts.findSome? textDecodeOf)).findSome? truthyDecode
                with _ | y <;> simp
          · simp [truthyDecode, bytesTruthy]

/-! ## Helper lemmas about the actions -/

theorem processResponse_promptHistory (s : Session) (r : Response) (b : Bool) :
    (processResponse s r b).1.promptHistory = appendReply s.promptHistory r := by
  unfold processResponse
  rcases hb : bytesTruthy (extractImage r) <;> cases b <;> simp [hb]

theorem appendReply_length (h : List (Option Content)) (r : Response) :
    h.length ≤ (appendReply h r).length := by
  unfold appendReply
  split <;> simp

theorem appendReply_head? (h : List (Option Content)) (r : Response) (x : Option Content)
    (hx : h.head? = some x) :
    (appendReply h r).head? = some x := by
  unfold appendReply
  rcases h with _ | ⟨a, t⟩
  · simp at hx
  · split <;> simp_all

theorem onGenerate_promptHistory (s : Session) (k up : String)
    (m : List (Option Part)) (o : ApiOutcome)
    (hcap : s.viewportCaptured = true)
    (hbytes : bytesTruthy s.capturedViewportBytes = true)
    (hk : k ≠ "") :
    (onGenerate s k up m o).1.promptHistory =
      (let req : Option Content :=
        some { role := "user",
               parts := generateRequestParts (s.capturedViewportBytes.getD [])
                 (if s.promptHistory.isEmpty then fullPromptOf up else iterationPromptOf up) m }
      let base := if s.promptHistory.isEmpty then [req] else s.promptHistory ++ [req]
      match o with
      | ApiOutcome.failure _ => base
      | ApiOutcome.success r => appendReply base r) := by
  by_cases hemp : s.promptHistory.isEmpty <;>
    cases o <;>
      simp [onGenerate, hcap, hbytes, hk, hemp, processResponse_promptHistory]

theorem executeCaptureViewport_promptHistory (s : Session) (k : String) (png : Bytes)
    (cam : String) (o : ApiOutcome) (hk : k ≠ "") :
    (executeCaptureViewport s k png cam o).1.promptHistory =
      (match o with
      | ApiOutcome.failure _ =>
          [some { role := "user", parts := capturePartsList png cam }]
      | ApiOutcome.success r =>
          appendReply [some { role := "user", parts := capturePartsList png cam }] r) := by
  cases o <;> simp [executeCaptureViewport, hk, processResponse_promptHistory]

theorem get?_append_self {α : Type} (l₁ l₂ : List α) (x : α) :
    (l₁ ++ x :: l₂).get? l₁.length = some x := by
  induction l₁ with
  | nil => rfl
  | cons a l ih => simpa using ih

/-! ## Claim theorems -/

/-- C4: invoking Generate while no viewport has been captured fails with
the precondition error ("Please capture viewport first!"), attempts no
API call (the result does not depend on the API outcome), and leaves the
whole session state, in particular the reference image, unchanged. -/
theorem generate_requires_capture (s : Session) (k up : String)
    (m : List (Option Part)) (o : ApiOutcome)
    (h : s.viewportCaptured = false) :
    onGenerate s k up m o =
      (s, ActionResult.preconditionError "Please capture viewport first!") := by
  simp [onGenerate, h]

/-- C4 witness: on the freshly initialised session, Generate returns the
precondition error and the unchanged state, for an arbitrary outcome. -/
theorem generate_requires_capture_witness :
    onGenerate initialSession "key" "prompt" [] (ApiOutcome.failure "net down") =
      (initialSession, ActionResult.preconditionError "Please capture viewport first!") :=
  generate_requires_capture initialSession "key" "prompt" [] (ApiOutcome.failure "net down")
    (by decide)

/-- C5: invoking Iterate when no previously generated result image
exists fails with the precondition error ("No generated image available
to iterate with!") and leaves the whole session state, in particular the
reference image, unchanged. -/
theorem iterate_requires_result (s : Session)
    (h : s.lastGeneratedImage = none) :
    onIterate s =
      (s, ActionResult.preconditionError "No generated image available to iterate with!") := by
  simp [onIterate, h]

/-- C5 witness: on a captured session with no generated result, Iterate
returns the precondition error and the unchanged state. -/
theorem iterate_requires_result_witness :
    onIterate capturedSession =
      (capturedSession,
       ActionResult.preconditionError "No generated image available to iterate with!") :=
  iterate_requires_result capturedSession (by decide)

/-- C6: on a successful Iterate, the reference image is replaced by the
last generated result, the conversation history is untouched, the
captured flag stays true, and the action reports success. -/
theorem iterate_success_effect (s : Session) (img : Bytes)
    (h : s.lastGeneratedImage = some img) :
    (onIterate s).1.capturedViewportBytes = some img
    ∧ (onIterate s).1.promptHistory = s.promptHistory
    ∧ (onIterate s).1.viewportCaptured = true
    ∧ (onIterate s).2 = ActionResult.ok := by
  simp [onIterate, h]

/-- C6 witness: iterating on a session holding the generated result
`[3]` promotes `[3]` to the reference, keeps the history and the
captured flag, and succeeds. -/
theorem iterate_success_effect_witness :
    (onIterate generatedSession).1.capturedViewportBytes = some ([3] : Bytes)
    ∧ (onIterate generatedSession).1.promptHistory = generatedSession.promptHistory
    ∧ (onIterate generatedSession).1.viewportCaptured = true
    ∧ (onIterate generatedSession).2 = ActionResult.ok :=
  iterate_success_effect generatedSession [3] (by decide)

/-- C8: the computed cost of a call is
`(inputTokens/1e6)*inputPrice + (outputTokens/1e6)*outputPrice +
fixedPerImagePrice` for the model's entry of the price table; with zero
tokens it is exactly the fixed per-image price; and a response without
usage metadata is charged the fixed per-image price of the active model
alone. -/
theorem cost_accounting :
    (∀ (it ot : Nat) (m : String),
        (calculateGenerationCost it ot m).totalCost
          = ((it : ℚ) / 1000000) * (getModelPricing m).inputPrice
            + ((ot : ℚ) / 1000000) * (getModelPricing m).outputPrice
            + (getModelPricing m).costPerImage)
    ∧ (∀ m : String,
        (calculateGenerationCost 0 0 m).totalCost = (getModelPricing m).costPerImage)
    ∧ (∀ cs : List Candidate,
        chargedCost { usageMetadata := none, candidates := cs }
          = (getModelPricing defaultModel).costPerImage)
    ∧ (∀ (u : Usage) (cs : List Candidate),
        chargedCost { usageMetadata := some u, candidates := cs }
          = (calculateGenerationCost u.promptTokenCount u.candidatesTokenCount
              defaultModel).totalCost) := by
  refine ⟨fun it ot m => rfl, fun m => ?_, fun cs => rfl, fun u cs => rfl⟩
  simp [calculateGenerationCost]

/-- C1 counterexample: on a response whose single candidate carries two
inline image parts `[1]` and `[2]`, the first inline image part is `[1]`
but the code extracts `[2]` — the scan loop overwrites without breaking,
so the claimed first-wins policy does not hold. -/
theorem extractImage_not_first_inline :
    specFirstInlineImage respTwoImages = some [1]
    ∧ extractImage respTwoImages = some [2]
    ∧ specFirstInlineImage respTwoImages ≠ extractImage respTwoImages := by
  refine ⟨by decide, by decide, by decide⟩

/-- C1 (amended): scanning all candidates and their parts in order, the
LAST inline image part found wins; when no inline image part exists, the
fallback walks the candidates in order, each contributing the first of
its text parts that decodes as a `data:image...;base64,` URI (under
CPython's lenient decoder), and stops at the first candidate whose
decode is non-empty — an empty decode is carried along without stopping
the walk; `_process_response` reports the no-image error exactly when
this leaves no truthy image bytes. -/
theorem extractImage_policy :
    (∀ r : Response,
        extractImage r =
          match specLastInlineImage r with
          | some b => some b
          | none => specFallbackImage r)
    ∧ (∀ (s : Session) (r : Response) (b : Bool),
        ((processResponse s r b).2.1 = ProcessResult.noImage
          ↔ bytesTruthy (extractImage r) = false)) := by
  constructor
  · intro r
    unfold extractImage
    rw [scanResponse_imgBytes]
    rcases h : specLastInlineImage r with _ | b
    · rw [fallbackScanCandidates_eq r.candidates none rfl]
      rfl
    · rfl
  · intro s r b
    unfold processResponse
    rcases hb : bytesTruthy (extractImage r) <;> cases b <;> simp [hb]

/-- C2 counterexample: on a captured session with empty history, a
Generate whose API call fails leaves the conversation history changed
(the outgoing user request turn was recorded before the call), so the
session state is not exactly what it was before the invocation. -/
theorem generate_api_failure_changes_history :
    (onGenerate capturedSession "key" "" [] (ApiOutcome.failure "boom")).1.promptHistory
      ≠ capturedSession.promptHistory := by
  decide

/-- C2 (amended): when the API call of a Generate raises, the reference
image, the captured flag and the last generated result are unchanged,
the error is surfaced verbatim and the timer is stopped; the
conversation history, however, has already been extended with the
outgoing user request turn (set as the sole turn when the history was
empty, appended otherwise). -/
theorem generate_api_failure_state (s : Session) (k up msg : String)
    (m : List (Option Part))
    (hcap : s.viewportCaptured = true)
    (hbytes : bytesTruthy s.capturedViewportBytes = true)
    (hk : k ≠ "") :
    (onGenerate s k up m (ApiOutcome.failure msg)).1.capturedViewportBytes
        = s.capturedViewportBytes
    ∧ (onGenerate s k up m (ApiOutcome.failure msg)).1.viewportCaptured
        = s.viewportCaptured
    ∧ (onGenerate s k up m (ApiOutcome.failure msg)).1.lastGeneratedImage
        = s.lastGeneratedImage
    ∧ (onGenerate s k up m (ApiOutcome.failure msg)).1.timerRunning = false
    ∧ (onGenerate s k up m (ApiOutcome.failure msg)).2 = ActionResult.apiError msg
    ∧ (onGenerate s k up m (ApiOutcome.failure msg)).1.promptHistory
        = (if s.promptHistory.isEmpty then
             [some { role := "user",
                     parts := generateRequestParts (s.capturedViewportBytes.getD [])
                       (fullPromptOf up) m }]
           else
             s.promptHistory ++
               [some { role := "user",
                       parts := generateRequestParts (s.capturedViewportBytes.getD [])
                         (iterationPromptOf up) m }]) := by
  by_cases hemp : s.promptHistory.isEmpty <;>
    simp [onGenerate, hcap, hbytes, hk, hemp]

/-- C2 witness: on the captured session with empty history, a failing
Generate keeps the reference and flags, stops the timer, surfaces the
error verbatim, and records the fresh request turn. -/
theorem generate_api_failure_state_witness :
    (onGenerate capturedSession "key" "" [] (ApiOutcome.failure "boom")).1.capturedViewportBytes
        = capturedSession.capturedViewportBytes
    ∧ (onGenerate capturedSession "key" "" [] (ApiOutcome.failure "boom")).1.viewportCaptured
        = capturedSession.viewportCaptured
    ∧ (onGenerate capturedSession "key" "" [] (ApiOutcome.failure "boom")).1.lastGeneratedImage
        = capturedSession.lastGeneratedImage
    ∧ (onGenerate capturedSession "key" "" [] (ApiOutcome.failure "boom")).1.timerRunning = false
    ∧ (onGenerate capturedSession "key" "" [] (ApiOutcome.failure "boom")).2
        = ActionResult.apiError "boom"
    ∧ (onGenerate capturedSession "key" "" [] (ApiOutcome.failure "boom")).1.promptHistory
        = (if capturedSession.promptHistory.isEmpty then
             [some { role := "user",
                     parts := generateRequestParts (capturedSession.capturedViewportBytes.getD [])
                       (fullPromptOf "") [] }]
           else
             capturedSession.promptHistory ++
               [some { role := "user",
                       parts := generateRequestParts (capturedSession.capturedViewportBytes.getD [])
                         (iterationPromptOf "") [] }]) :=
  generate_api_failure_state capturedSession "key" "" "boom" []
    (by decide) (by decide) (by decide)

/-- C3: the conversation history is reset exactly by Capture and never
cleared by Generate or Iterate: Generate never shrinks the history
(it grows it whenever it gets past its checks), Iterate leaves it
untouched, and the history produced by a Capture is freshly rebuilt —
it is independent of whatever history the session had before, and (once
the API key check passes) starts with Capture's own structured request
turn. -/
theorem promptHistory_lifecycle :
    (∀ (s : Session) (k up : String) (m : List (Option Part)) (o : ApiOutcome),
        s.promptHistory.length ≤ (onGenerate s k up m o).1.promptHistory.length)
    ∧ (∀ s : Session, (onIterate s).1.promptHistory = s.promptHistory)
    ∧ (∀ (s t : Session) (k : String) (png : Bytes) (cam : String) (o : ApiOutcome),
        (executeCaptureViewport s k png cam o).1.promptHistory
          = (executeCaptureViewport t k png cam o).1.promptHistory)
    ∧ (∀ (s : Session) (k : String) (png : Bytes) (cam : String) (o : ApiOutcome),
        k ≠ "" →
        (executeCaptureViewport s k png cam o).1.promptHistory.head?
          = some (some { role := "user", parts := capturePartsList png cam })) := by
  refine ⟨?_, ?_, ?_, ?_⟩
  · intro s k up m o
    by_cases hcap : s.viewportCaptured = true
    · by_cases hbytes : bytesTruthy s.capturedViewportBytes = true
      · by_cases hk : k = ""
        · simp [onGenerate, hcap, hbytes, hk]
        · rw [onGenerate_promptHistory s k up m o hcap hbytes hk]
          by_cases hemp : s.promptHistory.isEmpty
          · have hnil : s.promptHistory = [] := by
              simpa using hemp
            cases o <;> simp [hemp, hnil]
          · cases o with
            | failure msg => simp [hemp]
            | success r =>
                simp only [hemp, if_false, Bool.false_eq_true]
                calc s.promptHistory.length
                    ≤ (s.promptHistory ++
                        [some (Content.mk "user"
                          (generateRequestParts (s.capturedViewportBytes.getD [])
                            (iterationPromptOf up) m))]).length := by simp
                  _ ≤ _ := appendReply_length _ r
      · have hb : bytesTruthy s.capturedViewportBytes = false := by
          rcases h : bytesTruthy s.capturedViewportBytes <;> simp_all
        simp [onGenerate, hb]
    · have hc : s.viewportCaptured = false := by
        rcases h : s.viewportCaptured <;> simp_all
      simp [onGenerate, hc]
  · intro s
    rcases h : s.lastGeneratedImage <;> simp [onIterate, h]
  · intro s t k png cam o
    by_cases hk : k = ""
    · simp [executeCaptureViewport, hk]
    · rw [executeCaptureViewport_promptHistory s k png cam o hk,
         executeCaptureViewport_promptHistory t k png cam o hk]
  · intro s k png cam o hk
    rw [executeCaptureViewport_promptHistory s k png cam o hk]
    cases o with
    | failure msg => rfl
    | success r =>
        exact appendReply_head? _ r _ rfl

/-- C3 witness: a concrete capture on a session with a stale two-turn
history yields the same freshly rebuilt history head as a capture on the
pristine session. -/
theorem promptHistory_lifecycle_witness :
    (executeCaptureViewport generatedSession "key" [9] "" (ApiOutcome.failure "boom")).1.promptHistory.head?
      = some (some { role := "user", parts := capturePartsList [9] "" }) :=
  promptHistory_lifecycle.2.2.2 generatedSession "key" [9] "" (ApiOutcome.failure "boom")
    (by decide)

/-- C7: the request turn a Generate records (and sends) carries, in this
fixed order, the current reference image first, then the instruction
text — the strict instruction concatenated with the user prompt, or with
a default phrase when the prompt is empty — and then the set mood-board
parts strictly last; and the request turn built by a Capture consists of
the structured text and the snapshot only, never any mood-board part. -/
theorem request_part_order (s : Session) (k up : String) (m : List (Option Part))
    (o : ApiOutcome) (ref : Bytes)
    (hcap : s.viewportCaptured = true)
    (href : s.capturedViewportBytes = some ref)
    (hne : ref ≠ [])
    (hk : k ≠ "") :
    (∃ txt,
        ((onGenerate s k up m o).1.promptHistory).get? s.promptHistory.length
          = some (some (Content.mk "user"
              (Part.fromBytes ref "image/png" :: Part.fromText txt :: moodParts m)))
        ∧ (up ≠ "" → txt = strictInstruction ++ up)
        ∧ (up = "" →
            txt = strictInstruction ++ "Create an image based on this reference."
            ∨ txt = strictInstruction ++ "Continue with this image"))
    ∧ (∀ (t : Session) (k2 : String) (png : Bytes) (cam : String) (o2 : ApiOutcome),
        k2 ≠ "" →
        (executeCaptureViewport t k2 png cam o2).1.promptHistory.get? 0
          = some (some (Content.mk "user"
              [Part.fromText (structuredPrompt cam), Part.fromBytes png "image/png"]))) := by
  have hbytes : bytesTruthy s.capturedViewportBytes = true := by
    rw [href]
    cases ref with
    | nil => exact absurd rfl hne
    | cons a l => rfl
  constructor
  · refine ⟨if s.promptHistory.isEmpty then fullPromptOf up else iterationPromptOf up,
      ?_, ?_, ?_⟩
    · rw [onGenerate_promptHistory s k up m o hcap hbytes hk]
      by_cases hemp : s.promptHistory.isEmpty
      · have hnil : s.promptHistory = [] := by simpa using hemp
        cases o with
        | failure msg => simp [hemp, hnil, href, generateRequestParts]
        | success r =>
            rcases hr : r.candidates.head? with _ | c <;>
              simp [hemp, hnil, href, generateRequestParts, appendReply, hr]
      · cases o with
        | failure msg =>
            simp only [hemp, if_false, Bool.false_eq_true, href, Option.getD_some]
            simp [generateRequestParts, get?_append_self]
        | success r =>
            simp only [hemp, if_false, Bool.false_eq_true, href, Option.getD_some]
            rcases hr : r.candidates.head? with _ | c
            · simp [generateRequestParts, appendReply, hr, get?_append_self]
            · have := get?_append_self s.promptHistory [c.content]
                (some (Content.mk "user"
                  (Part.fromBytes ref "image/png" :: Part.fromText (iterationPromptOf up)
                    :: moodParts m)))
              simpa [generateRequestParts, appendReply, hr, List.append_assoc] using this
    · intro hup
      by_cases hemp : s.promptHistory.isEmpty <;>
        simp [hemp, fullPromptOf, iterationPromptOf, hup]
    · intro hup
      by_cases hemp : s.promptHistory.isEmpty <;>
        simp [hemp, fullPromptOf, iterationPromptOf, hup]
  · intro t k2 png cam o2 hk2
    rw [executeCaptureViewport_promptHistory t k2 png cam o2 hk2]
    cases o2 with
    | failure msg => rfl
    | success r =>
        rcases hr : r.candidates.head? with _ | c <;>
          simp [appendReply, hr, capturePartsList]

/-- C7 witness: a failing Generate on the captured session with an empty
prompt and no mood board records the turn [reference image, strict
instruction plus default phrase]; and captures build mood-board-free
request turns. -/
theorem request_part_order_witness :
    (∃ txt,
        ((onGenerate capturedSession "key" "" [] (ApiOutcome.failure "boom")).1.promptHistory).get?
            capturedSession.promptHistory.length
          = some (some (Content.mk "user"
              (Part.fromBytes [7] "image/png" :: Part.fromText txt :: moodParts [])))
        ∧ (("" : String) ≠ "" → txt = strictInstruction ++ "")
        ∧ (("" : String) = "" →
            txt = strictInstruction ++ "Create an image based on this reference."
            ∨ txt = strictInstruction ++ "Continue with this image"))
    ∧ (∀ (t : Session) (k2 : String) (png : Bytes) (cam : String) (o2 : ApiOutcome),
        k2 ≠ "" →
        (executeCaptureViewport t k2 png cam o2).1.promptHistory.get? 0
          = some (some (Content.mk "user"
              [Part.fromText (structuredPrompt cam), Part.fromBytes png "image/png"]))) :=
  request_part_order capturedSession "key" "" [] (ApiOutcome.failure "boom") [7]
    (by decide) (by decide) (by decide) (by decide)

/-- C9: when a response parses to no usable image, `_process_response`
reports the no-image error, but only after the conversation history has
been extended with the first candidate's reply turn; the reference and
the rest of the state are left alone (the returned state differs from
the input only in the appended history entry). -/
theorem noImage_history_updated (s : Session) (r : Response) (b : Bool) (c : Candidate)
    (hno : bytesTruthy (extractImage r) = false)
    (hc : r.candidates.head? = some c) :
    processResponse s r b =
      ({ s with promptHistory := s.promptHistory ++ [c.content] },
       ProcessResult.noImage, chargedCost r) := by
  unfold processResponse
  simp [hno, appendReply, hc]

/-- C9 witness: a text-only response yields the no-image result and the
history extended with the text-only reply turn. -/
theorem noImage_history_updated_witness :
    processResponse capturedSession respTextOnly false =
      ({ capturedSession with promptHistory :=
          capturedSession.promptHistory ++ [some textReplyContent] },
       ProcessResult.noImage, chargedCost respTextOnly) :=
  noImage_history_updated capturedSession respTextOnly false
    { content := some textReplyContent } (by decide) (by decide)

/-- C10: a successful Capture itself installs its API reply as the last
generated result and enables the Iterate button, so Capture directly
followed by Iterate — with no intervening Generate — is permitted, and
that Iterate succeeds, replacing the reference with Capture's own reply
while leaving the history untouched. -/
theorem capture_then_iterate (s : Session) (k : String) (png : Bytes) (cam : String)
    (r : Response) (img : Bytes)
    (hk : k ≠ "") (himg : extractImage r = some img) (hne : img ≠ []) :
    ((executeCaptureViewport s k png cam (ApiOutcome.success r)).1.lastGeneratedImage
        = some img)
    ∧ ((executeCaptureViewport s k png cam (ApiOutcome.success r)).1.iterateEnabled = true)
    ∧ ((executeCaptureViewport s k png cam (ApiOutcome.success r)).2 = ActionResult.ok)
    ∧ ((onIterate (executeCaptureViewport s k png cam (ApiOutcome.success r)).1).2
        = ActionResult.ok)
    ∧ ((onIterate (executeCaptureViewport s k png cam (ApiOutcome.success r)).1).1.capturedViewportBytes
        = some img)
    ∧ ((onIterate (executeCaptureViewport s k png cam (ApiOutcome.success r)).1).1.promptHistory
        = (executeCaptureViewport s k png cam (ApiOutcome.success r)).1.promptHistory) := by
  have hbt : bytesTruthy (some img) = true := by
    cases img with
    | nil => exact absurd rfl hne
    | cons a l => rfl
  simp [executeCaptureViewport, hk, processResponse, himg, hbt, onIterate]

/-- C10 witness: capturing with a one-image reply `[5]` on the pristine
session stores `[5]` as the generated result, enables Iterate, and the
immediate Iterate succeeds and promotes `[5]` to the reference. -/
theorem capture_then_iterate_witness :
    ((executeCaptureViewport initialSession "key" [9] "" (ApiOutcome.success respOneImage)).1.lastGeneratedImage
        = some [5])
    ∧ ((executeCaptureViewport initialSession "key" [9] "" (ApiOutcome.success respOneImage)).1.iterateEnabled = true)
    ∧ ((executeCaptureViewport initialSession "key" [9] "" (ApiOutcome.success respOneImage)).2 = ActionResult.ok)
    ∧ ((onIterate (executeCaptureViewport initialSession "key" [9] "" (ApiOutcome.success respOneImage)).1).2
        = ActionResult.ok)
    ∧ ((onIterate (executeCaptureViewport initialSession "key" [9] "" (ApiOutcome.success respOneImage)).1).1.capturedViewportBytes
        = some [5])
    ∧ ((onIterate (executeCaptureViewport initialSession "key" [9] "" (ApiOutcome.success respOneImage)).1).1.promptHistory
        = (executeCaptureViewport initialSession "key" [9] "" (ApiOutcome.success respOneImage)).1.promptHistory) :=
  capture_then_iterate initialSession "key" [9] "" respOneImage [5]
    (by decide) (by decide) (by decide)
